import Mathlib

/-!
Shallow embedding of the natural-hazard aggregation and scoring subsystem of
cuantia-server (src/routers/risk.py).  Python dicts are modelled as ordered
association lists, JSON values as the inductive type Json, floats as rationals,
and a Python function that can raise an exception is modelled as a function
into Option (none = the call raises and the surrounding handler catches it).
-/

namespace CuantiaRisk

/-- JSON-like values as produced by parsing a WMS response body. -/
inductive Json where
  | null
  | bool (b : Bool)
  | num (q : ℚ)
  | str (s : String)
  | arr (elems : List Json)
  | obj (entries : List (String × Json))
deriving Repr

/-- Python truthiness of a JSON-like value: None, False, 0, empty string,
empty list and empty dict are falsy, everything else is truthy. -/
def jsonTruthy : Json → Bool
  | .null => false
  | .bool b => b
  | .num q => q != 0
  | .str s => s != ""
  | .arr xs => !xs.isEmpty
  | .obj kvs => !kvs.isEmpty

/-- Dictionary lookup, d.get(k): the value of the first entry with key k. -/
def lookup : List (String × Json) → String → Option Json
  | [], _ => none
  | kv :: rest, k => if kv.1 == k then some kv.2 else lookup rest k

/-- Python dict merge as in the source's flood-data line: entries of a in
order, each overridden by b's value when b has the same key, followed by the
entries of b whose key is not in a. -/
def pythonMerge (a b : List (String × Json)) : List (String × Json) :=
  a.map (fun kv => (kv.1, (lookup b kv.1).getD kv.2))
    ++ b.filter (fun kv => (lookup a kv.1).isNone)

/-- raw_risks.get(key, an empty dict) used afterwards as a mapping: an absent
key gives the empty dict, a dict value gives its entries, and any other value
raises TypeError when unpacked or iterated (modelled as none). -/
def getObjOrEmpty (raw : List (String × Json)) (k : String) :
    Option (List (String × Json)) :=
  match lookup raw k with
  | none => some []
  | some (.obj kvs) => some kvs
  | some _ => none

/-- FLOOD_SCORE_MAP.get(periodo, 0): T10 scores 10, T100 scores 7,
T500 scores 5, any other key scores 0. -/
def FLOOD_SCORE_MAP (periodo : String) : ℚ :=
  if periodo = "T10" then 10
  else if periodo = "T100" then 7
  else if periodo = "T500" then 5
  else 0

/-- The guard isinstance(data, dict) and data.get("features") used by every
per-hazard scoring branch of calculate_risk_level. -/
def hasTruthyFeatures : Json → Bool
  | .obj kvs =>
    match lookup kvs "features" with
    | some v => jsonTruthy v
    | none => false
  | _ => false

/-- The flood loop of calculate_risk_level: starting from 0, every entry of
flood_data whose value is a dict with truthy features raises the running
maximum to that period's FLOOD_SCORE_MAP score. -/
def maxFloodScore (flood_data : List (String × Json)) : ℚ :=
  flood_data.foldl
    (fun m kv => if hasTruthyFeatures kv.2 then max m (FLOOD_SCORE_MAP kv.1) else m) 0

/-- The pattern pts if isinstance(d, dict) and d.get("features") else 0,
where d = raw_risks.get(key, an empty dict), used for the DPMT, fire and
seismic branches of calculate_risk_level. -/
def presenceScore (raw : List (String × Json)) (key : String) (pts : ℚ) : ℚ :=
  match lookup raw key with
  | some d => if hasTruthyFeatures d then pts else 0
  | none => 0

/-- The composite_score accumulated by calculate_risk_level before the final
banding: weighted sum of the flood maximum (weight 0.40), DPMT presence
(10 points, weight 0.30), fire presence (8 points, weight 0.20) and seismic
presence (5 points, weight 0.10).  none models the TypeError raised when an
inundacion entry is present but is not a dict. -/
def composite_score (raw_risks : List (String × Json)) : Option ℚ := do
  let fl ← getObjOrEmpty raw_risks "inundacion_fluvial"
  let ma ← getObjOrEmpty raw_risks "inundacion_marina"
  let flood_data := pythonMerge fl ma
  some (maxFloodScore flood_data * (0.40 : ℚ)
    + presenceScore raw_risks "dominio_publico_maritimo_terrestre" 10 * (0.30 : ℚ)
    + presenceScore raw_risks "incendios" 8 * (0.20 : ℚ)
    + presenceScore raw_risks "sismico" 5 * (0.10 : ℚ))

/-- The final banding of calculate_risk_level: a score of at most 3.0 gives
level 1, at most 6.0 gives level 2, anything larger gives level 3. -/
def riskLevelOfScore (s : ℚ) : ℕ :=
  if s ≤ 3 then 1
  else if s ≤ 6 then 2
  else 3

/-- calculate_risk_level: composite score followed by the final banding. -/
def calculate_risk_level (raw_risks : List (String × Json)) : Option ℕ :=
  (composite_score raw_risks).map riskLevelOfScore

/-- The check obj.get("type") == someString of remove_geometry_from_geojson:
true exactly when the dict has a string value under the key "type" equal to
the given string (None or a non-string value compares unequal). -/
def typeIs (kvs : List (String × Json)) (s : String) : Bool :=
  match lookup kvs "type" with
  | some (.str t) => t == s
  | _ => false

/-- The per-feature branch of remove_geometry_from_geojson: a dict feature is
kept with its "geometry" entry removed; a non-dict feature is skipped by the
isinstance check. -/
def stripFeature : Json → Option Json
  | .obj fkvs => some (.obj (fkvs.filter (fun kv => !(kv.1 == "geometry"))))
  | _ => none

/-- Python iteration over the value of obj.get("features", an empty list):
a list yields its elements, a dict yields its keys as strings, a string
yields its one-character substrings; iterating any other value raises
TypeError (none). -/
def featuresIterable : Json → Option (List Json)
  | .arr xs => some xs
  | .obj kvs => some (kvs.map (fun kv => Json.str kv.1))
  | .str s => some (s.data.map (fun c => Json.str (String.singleton c)))
  | _ => none

/-- remove_geometry_from_geojson: a FeatureCollection is rebuilt as a dict
with only the keys "type" and "features", keeping each dict feature without
its "geometry" entry; a Feature loses its "geometry" entry; anything else is
returned unchanged. -/
def remove_geometry_from_geojson (obj : Json) : Option Json :=
  match obj with
  | .obj kvs =>
    if typeIs kvs "FeatureCollection" then
      match featuresIterable ((lookup kvs "features").getD (.arr [])) with
      | some fs =>
        some (.obj [("type", .str "FeatureCollection"),
                    ("features", .arr (fs.filterMap stripFeature))])
      | none => none
    else if typeIs kvs "Feature" then
      some (.obj (kvs.filter (fun kv => !(kv.1 == "geometry"))))
    else some (.obj kvs)
  | j => some j

/-- Outcome of one HTTP GET inside fetch_any: a 2xx response whose body
parses as JSON, a 2xx response whose body is not JSON, or a transport or
non-2xx status error with its message. -/
inductive HttpOutcome where
  | ok (body : Json)
  | okRaw (text : String)
  | err (msg : String)
deriving Repr

/-- The FetchError dict returned when every URL fails. -/
def errObj (m : String) : Json := .obj [("error", .str m)]

/-- last_err or "unknown error": Python "or" replaces None and the empty
string by the fallback. -/
def orUnknown : Option String → String
  | some m => if m = "" then "unknown error" else m
  | none => "unknown error"

/-- The loop of fetch_any with the accumulated last_err: the first successful
response is returned at once (parsed JSON, or the raw-text wrapper when the
body is not JSON); an error stores its message and moves to the next URL;
when the URLs are exhausted the FetchError dict carries the last message. -/
def fetch_any_go : List HttpOutcome → Option String → Json
  | [], last_err => errObj (orUnknown last_err)
  | .ok b :: _, _ => b
  | .okRaw t :: _, _ => .obj [("raw", .str t)]
  | .err m :: rest, _ => fetch_any_go rest (some m)

/-- fetch_any over the ordered outcomes of its URL list, starting with
last_err = None. -/
def fetch_any (outcomes : List HttpOutcome) : Json :=
  fetch_any_go outcomes none

/-- Per-request timeout passed by fetch_any to client.get, in seconds. -/
def fetchTimeoutSeconds : ℚ := 25

/-- The note string embedded in the risk_analysis object of the response. -/
def riskNote : String :=
  "Riesgo calculado por Score Ponderado (Inundación 40%, DPMT 30%, Incendios 20%, Sismico 10%)."

/-- The dict comprehension that applies remove_geometry_from_geojson to every
value of a per-period flood dict, keeping keys and order. -/
def stripValues : List (String × Json) → Option (List (String × Json))
  | [] => some []
  | kv :: rest => do
    let j ← remove_geometry_from_geojson kv.2
    let tail ← stripValues rest
    some ((kv.1, j) :: tail)

/-- The body of the api_risk_clean endpoint on an already-fetched raw result:
compute the risk level, then build the response dict with lat, lon, the
risk_analysis object and the sin_geometria object whose per-hazard entries
are geometry-stripped (desertification is passed through raw).  none models
an exception reaching the outer try/except, which answers 500. -/
def api_risk_clean (lat lon : ℚ) (raw : List (String × Json)) : Option Json := do
  let risk_level ← calculate_risk_level raw
  let inf ← getObjOrEmpty raw "inundacion_fluvial"
  let im ← getObjOrEmpty raw "inundacion_marina"
  let dpmt ← remove_geometry_from_geojson
    ((lookup raw "dominio_publico_maritimo_terrestre").getD (.obj []))
  let inc ← remove_geometry_from_geojson ((lookup raw "incendios").getD (.obj []))
  let infStripped ← stripValues inf
  let imStripped ← stripValues im
  let sis ← remove_geometry_from_geojson ((lookup raw "sismico").getD (.obj []))
  some (.obj
    [("lat", .num lat), ("lon", .num lon),
     ("risk_analysis", .obj
       [("final_risk_level", .num (risk_level : ℚ)), ("note", .str riskNote)]),
     ("sin_geometria", .obj
       [("dominio_publico_maritimo_terrestre", dpmt),
        ("incendios", inc),
        ("inundacion_fluvial", .obj infStripped),
        ("inundacion_marina", .obj imStripped),
        ("sismico", sis),
        ("desertificacion_potencial", (lookup raw "desertificacion_potencial").getD (.obj [])),
        ("desertificacion_laminar", (lookup raw "desertificacion_laminar").getD (.obj []))])])

/-- The raw result produced by fetch_all_risks when every source fails: the
fixed hazard keys in fetch order, each holding the FetchError dict of its
fetch_any call (per-period dicts for the two flood families). -/
def allErrorRaw (m1 m2 m3 m4 m5 m6 m7 m8 m9 m10 : String) :
    List (String × Json) :=
  [("dominio_publico_maritimo_terrestre", errObj m1),
   ("incendios", errObj m2),
   ("inundacion_fluvial",
     .obj [("T10", errObj m3), ("T100", errObj m4), ("T500", errObj m5)]),
   ("inundacion_marina", .obj [("T100", errObj m6), ("T500", errObj m7)]),
   ("sismico", errObj m8),
   ("desertificacion_potencial", errObj m9),
   ("desertificacion_laminar", errObj m10)]

/-- One network event of fetch_all_risks: a request to a hazard source is
started, or its awaited response (or error) completes. -/
inductive FetchEvent where
  | start (source : String)
  | complete (source : String)
deriving Repr, DecidableEq

/-- The order of network operations performed by fetch_all_risks: every
hazard request is made by a statement of the form
results[key] = await fetch_any(client, [url]), which starts the request and
awaits its completion before the next statement runs, so each completion
precedes the next start. -/
def fetch_all_risks_trace : List FetchEvent :=
  [.start "dominio_publico_maritimo_terrestre", .complete "dominio_publico_maritimo_terrestre",
   .start "incendios", .complete "incendios",
   .start "inundacion_fluvial.T10", .complete "inundacion_fluvial.T10",
   .start "inundacion_fluvial.T100", .complete "inundacion_fluvial.T100",
   .start "inundacion_fluvial.T500", .complete "inundacion_fluvial.T500",
   .start "inundacion_marina.T100", .complete "inundacion_marina.T100",
   .start "inundacion_marina.T500", .complete "inundacion_marina.T500",
   .start "sismico", .complete "sismico",
   .start "desertificacion_potencial", .complete "desertificacion_potencial",
   .start "desertificacion_laminar", .complete "desertificacion_laminar"]

/-- Recognizer for request-start events. -/
def isStart : FetchEvent → Bool
  | .start _ => true
  | .complete _ => false

/-- The concurrency shape asserted by the spec: every request is started
before any is awaited, i.e. the trace is a block of starts followed only by
completions. -/
def allStartedBeforeAnyAwaited (tr : List FetchEvent) : Bool :=
  (tr.dropWhile isStart).all (fun e => !(isStart e))

/-- Strictly sequential shape: the trace is a sequence of start/complete
pairs, each request completing before the next starts. -/
def sequentialPairs : List FetchEvent → Bool
  | [] => true
  | .start s :: .complete t :: rest => s == t && sequentialPairs rest
  | _ => false

/-! Helper lemmas about the scorer. -/

lemma flood_score_map_nonneg (p : String) : 0 ≤ FLOOD_SCORE_MAP p := by
  unfold FLOOD_SCORE_MAP
  split <;> try norm_num
  split <;> try norm_num
  split <;> norm_num

lemma flood_score_map_le_ten (p : String) : FLOOD_SCORE_MAP p ≤ 10 := by
  unfold FLOOD_SCORE_MAP
  split <;> try norm_num
  split <;> try norm_num
  split <;> norm_num

lemma maxFloodScore_foldl_bounds (fd : List (String × Json)) (m : ℚ)
    (h0 : 0 ≤ m) (h10 : m ≤ 10) :
    0 ≤ fd.foldl
        (fun m kv => if hasTruthyFeatures kv.2 then max m (FLOOD_SCORE_MAP kv.1) else m) m
    ∧ fd.foldl
        (fun m kv => if hasTruthyFeatures kv.2 then max m (FLOOD_SCORE_MAP kv.1) else m) m
      ≤ 10 := by
  induction fd generalizing m with
  | nil => exact ⟨h0, h10⟩
  | cons kv rest ih =>
    simp only [List.foldl_cons]
    by_cases hf : hasTruthyFeatures kv.2
    · simp only [hf, if_true]
      exact ih _ (le_trans h0 (le_max_left _ _))
        (max_le h10 (flood_score_map_le_ten kv.1))
    · simp only [hf, if_false]
      exact ih _ h0 h10

lemma maxFloodScore_nonneg (fd : List (String × Json)) : 0 ≤ maxFloodScore fd :=
  (maxFloodScore_foldl_bounds fd 0 le_rfl (by norm_num)).1

lemma maxFloodScore_le_ten (fd : List (String × Json)) : maxFloodScore fd ≤ 10 :=
  (maxFloodScore_foldl_bounds fd 0 le_rfl (by norm_num)).2

lemma presenceScore_cases (raw : List (String × Json)) (key : String) (pts : ℚ) :
    presenceScore raw key pts = 0 ∨ presenceScore raw key pts = pts := by
  unfold presenceScore
  cases lookup raw key with
  | none => exact Or.inl rfl
  | some d =>
    by_cases hf : hasTruthyFeatures d
    · simp [hf]
    · simp [hf]

lemma presenceScore_nonneg (raw : List (String × Json)) (key : String) (pts : ℚ)
    (hp : 0 ≤ pts) : 0 ≤ presenceScore raw key pts := by
  rcases presenceScore_cases raw key pts with h | h <;> rw [h]
  exact hp

lemma presenceScore_le (raw : List (String × Json)) (key : String) (pts : ℚ)
    (hp : 0 ≤ pts) : presenceScore raw key pts ≤ pts := by
  rcases presenceScore_cases raw key pts with h | h <;> rw [h]
  exact hp

lemma maxFloodScore_eq_zero (fd : List (String × Json))
    (h : ∀ kv ∈ fd, hasTruthyFeatures kv.2 = false) : maxFloodScore fd = 0 := by
  unfold maxFloodScore
  induction fd with
  | nil => rfl
  | cons kv rest ih =>
    simp only [List.foldl_cons, h kv (List.mem_cons_self kv rest), if_false,
      Bool.false_eq_true]
    exact ih (fun kv2 h2 => h kv2 (List.mem_cons_of_mem kv h2))

lemma lookup_mem_value (b : List (String × Json)) (k : String) (w : Json)
    (h : lookup b k = some w) : ∃ kv2 ∈ b, kv2.2 = w := by
  induction b with
  | nil => simp [lookup] at h
  | cons kv rest ih =>
    simp only [lookup] at h
    by_cases hk : (kv.1 == k) = true
    · rw [if_pos hk] at h
      exact ⟨kv, List.mem_cons_self kv rest, by injection h⟩
    · rw [if_neg hk] at h
      rcases ih h with ⟨kv2, hmem, hval⟩
      exact ⟨kv2, List.mem_cons_of_mem kv hmem, hval⟩

lemma pythonMerge_values (a b : List (String × Json)) (kv : String × Json)
    (h : kv ∈ pythonMerge a b) :
    (∃ kv2 ∈ a, kv.2 = kv2.2) ∨ (∃ kv2 ∈ b, kv.2 = kv2.2) := by
  unfold pythonMerge at h
  rcases List.mem_append.mp h with hmap | hfil
  · rcases List.mem_map.mp hmap with ⟨kv0, hmem, heq⟩
    cases hb : lookup b kv0.1 with
    | none =>
      left
      refine ⟨kv0, hmem, ?_⟩
      rw [← heq]
      simp [hb]
    | some w =>
      right
      rcases lookup_mem_value b kv0.1 w hb with ⟨kv2, hmem2, hval⟩
      refine ⟨kv2, hmem2, ?_⟩
      rw [← heq]
      simp [hb, hval]
  · right
    exact ⟨kv, List.mem_of_mem_filter hfil, rfl⟩

lemma lookup_filter_geometry (kvs : List (String × Json)) (k : String) :
    lookup (kvs.filter (fun kv => !(kv.1 == "geometry"))) k
      = if k = "geometry" then none else lookup kvs k := by
  induction kvs with
  | nil => simp [lookup]
  | cons kv rest ih =>
    rw [List.filter_cons]
    by_cases hg : (kv.1 == "geometry") = true
    · rw [if_neg (by simp [hg])]
      rw [ih]
      by_cases hk : k = "geometry"
      · simp [hk]
      · have hne : (kv.1 == k) = false := by
          rw [beq_eq_false_iff_ne]
          rw [beq_iff_eq.mp hg]
          exact fun h => hk h.symm
        simp [hk, lookup, hne]
    · have hgf : (kv.1 == "geometry") = false := by simpa using hg
      rw [if_pos (by simp [hgf])]
      simp only [lookup, ih]
      by_cases hkv : (kv.1 == k) = true
      · have hk : k ≠ "geometry" := by
          rw [← beq_iff_eq.mp hkv]
          exact fun h => hg (by simp [h])
        simp [hkv, hk]
      · have hkvf : (kv.1 == k) = false := by simpa using hkv
        simp [hkvf]

lemma riskLevelOfScore_mono {s t : ℚ} (h : s ≤ t) :
    riskLevelOfScore s ≤ riskLevelOfScore t := by
  unfold riskLevelOfScore
  by_cases h3 : t ≤ 3
  · simp [le_trans h h3, h3]
  · by_cases h6 : t ≤ 6
    · simp only [h3, if_false, h6, if_true]
      by_cases hs3 : s ≤ 3
      · simp [hs3]
      · simp [hs3, le_trans h h6]
    · simp only [h3, if_false, h6]
      split <;> try norm_num
      split <;> norm_num

lemma riskLevelOfScore_eq_three_iff (s : ℚ) :
    riskLevelOfScore s = 3 ↔ 6 < s := by
  unfold riskLevelOfScore
  split_ifs with h3 h6
  · exact iff_of_false (by omega) (not_lt.mpr (by linarith))
  · exact iff_of_false (by omega) (not_lt.mpr h6)
  · exact iff_of_true rfl (not_le.mp h6)

/-! Concrete inputs used by witnesses and counterexamples. -/

/-- Raw result whose only signal is a DPMT feature: composite score exactly 3. -/
def dpmtOnlyRaw : List (String × Json) :=
  [("dominio_publico_maritimo_terrestre", .obj [("features", .arr [.obj []])])]

lemma dpmtOnlyRaw_score : composite_score dpmtOnlyRaw = some 3 := by
  simp [dpmtOnlyRaw, composite_score, getObjOrEmpty, lookup, pythonMerge, maxFloodScore,
    presenceScore, hasTruthyFeatures, jsonTruthy]
  norm_num

/-- Claim C1: a composite score of at most 3.0 yields level 1, a score in
(3.0, 6.0] yields level 2, and a score above 6.0 yields level 3; in
particular exactly 3.0 gives level 1 and exactly 6.0 gives level 2. -/
theorem C1_final_level_bands (raw : List (String × Json)) (s : ℚ)
    (h : composite_score raw = some s) :
    calculate_risk_level raw = some (riskLevelOfScore s)
    ∧ (s ≤ 3 → riskLevelOfScore s = 1)
    ∧ (3 < s → s ≤ 6 → riskLevelOfScore s = 2)
    ∧ (6 < s → riskLevelOfScore s = 3) := by
  refine ⟨by simp [calculate_risk_level, h], ?_, ?_, ?_⟩
  · intro hs
    unfold riskLevelOfScore
    rw [if_pos hs]
  · intro h1 h2
    unfold riskLevelOfScore
    rw [if_neg (not_le.mpr h1), if_pos h2]
  · intro h6
    unfold riskLevelOfScore
    rw [if_neg (not_le.mpr (by linarith)), if_neg (not_le.mpr h6)]

/-- Witness for C1 at the raw result whose composite score is exactly 3.0:
the reported level is 1 (the tie falls into the lower band). -/
theorem C1_final_level_bands_witness :
    composite_score dpmtOnlyRaw = some 3
    ∧ (calculate_risk_level dpmtOnlyRaw = some (riskLevelOfScore 3)
       ∧ ((3:ℚ) ≤ 3 → riskLevelOfScore 3 = 1)
       ∧ ((3:ℚ) < 3 → (3:ℚ) ≤ 6 → riskLevelOfScore 3 = 2)
       ∧ ((6:ℚ) < 3 → riskLevelOfScore 3 = 3)) :=
  ⟨dpmtOnlyRaw_score, C1_final_level_bands dpmtOnlyRaw 3 dpmtOnlyRaw_score⟩

/-- Claim C3: every composite score the scorer produces lies in the interval
from 0 to 10, the final level is among 1, 2, 3, and the level is monotone
non-decreasing in the score. -/
theorem C3_score_bounds_level_monotone :
    (∀ (raw : List (String × Json)) (s : ℚ), composite_score raw = some s →
      0 ≤ s ∧ s ≤ 10
      ∧ calculate_risk_level raw = some (riskLevelOfScore s)
      ∧ (riskLevelOfScore s = 1 ∨ riskLevelOfScore s = 2 ∨ riskLevelOfScore s = 3))
    ∧ (∀ s t : ℚ, s ≤ t → riskLevelOfScore s ≤ riskLevelOfScore t) := by
  constructor
  · intro raw s h
    have hlevel : calculate_risk_level raw = some (riskLevelOfScore s) := by
      simp [calculate_risk_level, h]
    have hmem : riskLevelOfScore s = 1 ∨ riskLevelOfScore s = 2 ∨ riskLevelOfScore s = 3 := by
      unfold riskLevelOfScore
      split_ifs <;> simp
    unfold composite_score at h
    cases hfl : getObjOrEmpty raw "inundacion_fluvial" with
    | none => rw [hfl] at h; simp at h
    | some fl =>
      cases hma : getObjOrEmpty raw "inundacion_marina" with
      | none => rw [hfl, hma] at h; simp at h
      | some ma =>
        rw [hfl, hma] at h
        simp only [Option.bind_eq_bind, Option.some_bind, Option.some.injEq] at h
        have hF0 := maxFloodScore_nonneg (pythonMerge fl ma)
        have hF10 := maxFloodScore_le_ten (pythonMerge fl ma)
        have hp1 := presenceScore_nonneg raw "dominio_publico_maritimo_terrestre" 10 (by norm_num)
        have hp1u := presenceScore_le raw "dominio_publico_maritimo_terrestre" 10 (by norm_num)
        have hp2 := presenceScore_nonneg raw "incendios" 8 (by norm_num)
        have hp2u := presenceScore_le raw "incendios" 8 (by norm_num)
        have hp3 := presenceScore_nonneg raw "sismico" 5 (by norm_num)
        have hp3u := presenceScore_le raw "sismico" 5 (by norm_num)
        have e1 : (0.40 : ℚ) = 2/5 := by norm_num
        have e2 : (0.30 : ℚ) = 3/10 := by norm_num
        have e3 : (0.20 : ℚ) = 1/5 := by norm_num
        have e4 : (0.10 : ℚ) = 1/10 := by norm_num
        rw [e1, e2, e3, e4] at h
        refine ⟨?_, ?_, hlevel, hmem⟩
        · rw [← h]; linarith
        · rw [← h]; linarith
  · intro s t h
    exact riskLevelOfScore_mono h

/-- Witness for C3 at the concrete raw result with composite score 3 and at
the concrete score pair 0 and 1. -/
theorem C3_score_bounds_level_monotone_witness :
    (0 ≤ (3:ℚ) ∧ (3:ℚ) ≤ 10
      ∧ calculate_risk_level dpmtOnlyRaw = some (riskLevelOfScore 3)
      ∧ (riskLevelOfScore 3 = 1 ∨ riskLevelOfScore 3 = 2 ∨ riskLevelOfScore 3 = 3))
    ∧ riskLevelOfScore 0 ≤ riskLevelOfScore 1 :=
  ⟨C3_score_bounds_level_monotone.1 dpmtOnlyRaw 3 dpmtOnlyRaw_score,
   C3_score_bounds_level_monotone.2 0 1 (by norm_num)⟩

/-- A return-period result with one feature: the flooded signal. -/
def floodedPayload : Json := .obj [("features", .arr [.obj []])]

/-- A return-period result with an empty feature list: no flood observed. -/
def emptyFeaturesPayload : Json := .obj [("features", .arr [])]

/-- Raw result where fluvial T100 is flooded while marine T100 exists and is
not flooded: the dict merge lets the marine entry shadow the fluvial one. -/
def shadowedFluvialRaw : List (String × Json) :=
  [("inundacion_fluvial", .obj [("T100", floodedPayload)]),
   ("inundacion_marina", .obj [("T100", emptyFeaturesPayload)])]

/-- Claim C2 (code bug): with fluvial T100 flooded and marine T100 present
but not flooded, the merged flood dict keeps only the marine entry, so the
flood contribution is 0 instead of the 7 points the flooded fluvial period
should contribute according to the maximum-over-all-periods rule stated in
the spec and in the source comment above the loop. -/
theorem C2_fluvial_shadowed_by_marina :
    maxFloodScore (pythonMerge [("T100", floodedPayload)] [("T100", emptyFeaturesPayload)]) = 0
    ∧ maxFloodScore [("T100", floodedPayload)] = 7
    ∧ composite_score shadowedFluvialRaw = some 0
    ∧ calculate_risk_level shadowedFluvialRaw = some 1 := by
  refine ⟨?_, ?_, ?_, ?_⟩
  · simp [pythonMerge, lookup, maxFloodScore, hasTruthyFeatures, jsonTruthy,
      floodedPayload, emptyFeaturesPayload]
  · simp [maxFloodScore, hasTruthyFeatures, jsonTruthy, lookup, floodedPayload, FLOOD_SCORE_MAP]
  · simp [shadowedFluvialRaw, composite_score, getObjOrEmpty, lookup, pythonMerge,
      maxFloodScore, presenceScore, hasTruthyFeatures, jsonTruthy,
      floodedPayload, emptyFeaturesPayload]
  · simp [calculate_risk_level, shadowedFluvialRaw, composite_score, getObjOrEmpty, lookup,
      pythonMerge, maxFloodScore, presenceScore, hasTruthyFeatures, jsonTruthy,
      floodedPayload, emptyFeaturesPayload, riskLevelOfScore]

/-- Raw result whose only signal is a fire feature. -/
def incendiosOnlyRaw : List (String × Json) :=
  [("incendios", .obj [("features", .arr [.obj []])])]

lemma incendiosOnlyRaw_score : composite_score incendiosOnlyRaw = some (8/5) := by
  simp [incendiosOnlyRaw, composite_score, getObjOrEmpty, lookup, pythonMerge,
    maxFloodScore, presenceScore, hasTruthyFeatures, jsonTruthy]
  norm_num

/-- Claim C9: without any flood return-period entry with a truthy features
list the composite score is at most 5.1, so the scorer can return level 3
only when some fluvial or marine entry is flooded. -/
theorem C9_level_three_requires_flood :
    (∀ (raw fl ma : List (String × Json)) (s : ℚ),
      getObjOrEmpty raw "inundacion_fluvial" = some fl →
      getObjOrEmpty raw "inundacion_marina" = some ma →
      (∀ kv ∈ fl, hasTruthyFeatures kv.2 = false) →
      (∀ kv ∈ ma, hasTruthyFeatures kv.2 = false) →
      composite_score raw = some s →
      s ≤ 51/10 ∧ calculate_risk_level raw ≠ some 3)
    ∧ (∀ (raw fl ma : List (String × Json)),
      getObjOrEmpty raw "inundacion_fluvial" = some fl →
      getObjOrEmpty raw "inundacion_marina" = some ma →
      calculate_risk_level raw = some 3 →
      ∃ kv, (kv ∈ fl ∨ kv ∈ ma) ∧ hasTruthyFeatures kv.2 = true) := by
  have main : ∀ (raw fl ma : List (String × Json)) (s : ℚ),
      getObjOrEmpty raw "inundacion_fluvial" = some fl →
      getObjOrEmpty raw "inundacion_marina" = some ma →
      (∀ kv ∈ fl, hasTruthyFeatures kv.2 = false) →
      (∀ kv ∈ ma, hasTruthyFeatures kv.2 = false) →
      composite_score raw = some s →
      s ≤ 51/10 ∧ calculate_risk_level raw ≠ some 3 := by
    intro raw fl ma s hfl hma hflf hmaf h
    have hmerge : ∀ kv ∈ pythonMerge fl ma, hasTruthyFeatures kv.2 = false := by
      intro kv hkv
      rcases pythonMerge_values fl ma kv hkv with ⟨kv2, hmem, hval⟩ | ⟨kv2, hmem, hval⟩
      · rw [hval]; exact hflf kv2 hmem
      · rw [hval]; exact hmaf kv2 hmem
    have hzero := maxFloodScore_eq_zero (pythonMerge fl ma) hmerge
    have hcopy := h
    unfold composite_score at h
    rw [hfl, hma] at h
    simp only [Option.bind_eq_bind, Option.some_bind, Option.some.injEq] at h
    rw [hzero] at h
    have hp1u := presenceScore_le raw "dominio_publico_maritimo_terrestre" 10 (by norm_num)
    have hp2u := presenceScore_le raw "incendios" 8 (by norm_num)
    have hp3u := presenceScore_le raw "sismico" 5 (by norm_num)
    have e1 : (0.40 : ℚ) = 2/5 := by norm_num
    have e2 : (0.30 : ℚ) = 3/10 := by norm_num
    have e3 : (0.20 : ℚ) = 1/5 := by norm_num
    have e4 : (0.10 : ℚ) = 1/10 := by norm_num
    rw [e1, e2, e3, e4] at h
    have hs : s ≤ 51/10 := by rw [← h]; linarith
    refine ⟨hs, ?_⟩
    intro hc
    rw [calculate_risk_level, hcopy] at hc
    simp only [Option.map_some', Option.some.injEq] at hc
    have := (riskLevelOfScore_eq_three_iff s).mp hc
    linarith
  constructor
  · exact main
  · intro raw fl ma hfl hma hlevel
    by_contra hnone
    push_neg at hnone
    have hflf : ∀ kv ∈ fl, hasTruthyFeatures kv.2 = false := by
      intro kv hkv
      have := hnone kv (Or.inl hkv)
      exact Bool.not_eq_true _ ▸ (by simpa using this)
    have hmaf : ∀ kv ∈ ma, hasTruthyFeatures kv.2 = false := by
      intro kv hkv
      have := hnone kv (Or.inr hkv)
      exact Bool.not_eq_true _ ▸ (by simpa using this)
    cases hcs : composite_score raw with
    | none => rw [calculate_risk_level, hcs] at hlevel; simp at hlevel
    | some s =>
      exact (main raw fl ma s hfl hma hflf hmaf hcs).2 hlevel

/-- Witness for C9: a fire-only raw result scores 1.6, below the level-3
band, with no flooded period. -/
theorem C9_level_three_requires_flood_witness :
    (8/5 : ℚ) ≤ 51/10 ∧ calculate_risk_level incendiosOnlyRaw ≠ some 3 :=
  C9_level_three_requires_flood.1 incendiosOnlyRaw [] [] (8/5)
    (by simp [incendiosOnlyRaw, getObjOrEmpty, lookup])
    (by simp [incendiosOnlyRaw, getObjOrEmpty, lookup])
    (by intro kv hkv; simp at hkv)
    (by intro kv hkv; simp at hkv)
    incendiosOnlyRaw_score

lemma fetch_any_go_skips_errors (pre : List String) (l : List HttpOutcome)
    (acc : Option String) :
    fetch_any_go (pre.map HttpOutcome.err ++ l) acc
      = fetch_any_go l (pre.foldl (fun _ m => some m) acc) := by
  induction pre generalizing acc with
  | nil => rfl
  | cons m rest ih =>
    simp only [List.map_cons, List.cons_append, fetch_any_go, List.foldl_cons]
    exact ih (some m)

/-- Claim C5: fetch_any returns the first successful response (parsed JSON,
or the raw-text wrapper when the body is not JSON, never treated as an
error), and when every URL fails it returns the FetchError dict carrying the
last error message; it is a total function, so it never raises. -/
theorem C5_fetch_any_first_success :
    (∀ (pre : List String) (b : Json) (rest : List HttpOutcome),
      fetch_any (pre.map HttpOutcome.err ++ HttpOutcome.ok b :: rest) = b)
    ∧ (∀ (pre : List String) (t : String) (rest : List HttpOutcome),
      fetch_any (pre.map HttpOutcome.err ++ HttpOutcome.okRaw t :: rest)
        = Json.obj [("raw", Json.str t)])
    ∧ (∀ (pre : List String) (m : String), m ≠ "" →
      fetch_any ((pre ++ [m]).map HttpOutcome.err) = errObj m) := by
  refine ⟨?_, ?_, ?_⟩
  · intro pre b rest
    unfold fetch_any
    rw [fetch_any_go_skips_errors]
    rfl
  · intro pre t rest
    unfold fetch_any
    rw [fetch_any_go_skips_errors]
    rfl
  · intro pre m hm
    unfold fetch_any
    rw [List.map_append, fetch_any_go_skips_errors]
    simp only [List.map_cons, List.map_nil, fetch_any_go, orUnknown]
    rw [if_neg hm]

/-- Witness for C5: two failing URLs produce the FetchError dict carrying
the second (last) error message. -/
theorem C5_fetch_any_first_success_witness :
    "timeout" ≠ ""
    ∧ fetch_any ((["dns failure"] ++ ["timeout"]).map HttpOutcome.err) = errObj "timeout" :=
  ⟨by decide, C5_fetch_any_first_success.2.2 ["dns failure"] "timeout" (by decide)⟩

/-- Claim C10 counterexample: the network trace of fetch_all_risks is not of
the claimed all-started-before-any-awaited shape: the first request is
awaited to completion before the second request starts. -/
theorem C10_not_all_started_first :
    allStartedBeforeAnyAwaited fetch_all_risks_trace = false := by rfl

/-- Claim C10 amended: fetch_all_risks issues its ten hazard requests
strictly sequentially, each request awaited to completion before the next is
started, with a per-request timeout of 25 seconds. -/
theorem C10_sequential_with_timeout :
    sequentialPairs fetch_all_risks_trace = true ∧ fetchTimeoutSeconds = 25 :=
  ⟨by rfl, rfl⟩

/-- A flood feature whose raster-sample value is zero. -/
def zeroValueFeature : Json := .obj [("properties", .obj [("GRAY_INDEX", .num 0)])]

/-- A flood feature carrying the no-data sentinel raster value. -/
def noDataValueFeature : Json :=
  .obj [("properties", .obj [("GRAY_INDEX", .num (-9999))])]

/-- Raw result whose fluvial T10 payload has one feature with raster value
zero. -/
def zeroValueFloodRaw : List (String × Json) :=
  [("inundacion_fluvial", .obj [("T10", .obj [("features", .arr [zeroValueFeature])])])]

/-- Claim C7 counterexample: a T10 payload whose only feature carries raster
value 0 (which the claim maps to not_flooded, contributing nothing) is scored
as flooded: composite score 4 and level 2 instead of 0 and level 1; a payload
whose feature carries the no-data sentinel is scored as flooded as well. -/
theorem C7_value_ignored_counterexample :
    composite_score zeroValueFloodRaw = some 4
    ∧ calculate_risk_level zeroValueFloodRaw = some 2
    ∧ maxFloodScore [("T10", .obj [("features", .arr [noDataValueFeature])])] = 10 := by
  refine ⟨?_, ?_, ?_⟩
  · simp [zeroValueFloodRaw, zeroValueFeature, composite_score, getObjOrEmpty, lookup,
      pythonMerge, maxFloodScore, presenceScore, hasTruthyFeatures, jsonTruthy,
      FLOOD_SCORE_MAP]
    norm_num
  · simp [calculate_risk_level, zeroValueFloodRaw, zeroValueFeature, composite_score,
      getObjOrEmpty, lookup, pythonMerge, maxFloodScore, presenceScore, hasTruthyFeatures,
      jsonTruthy, FLOOD_SCORE_MAP, riskLevelOfScore]
    norm_num
  · simp [maxFloodScore, hasTruthyFeatures, jsonTruthy, lookup, noDataValueFeature,
      FLOOD_SCORE_MAP]

/-- Claim C7 amended: the flood signal of a return period depends only on
the presence of a non-empty features list in the period's dict: any
non-empty list is scored with the period's table value whatever the feature
values are, and an empty or missing features list (or a non-dict payload)
contributes nothing. -/
theorem C7_flood_signal_presence_only (p : String) (d : Json) (xs : List Json)
    (h : xs ≠ []) :
    maxFloodScore [(p, Json.obj [("features", Json.arr xs)])] = FLOOD_SCORE_MAP p
    ∧ (hasTruthyFeatures d = false → maxFloodScore [(p, d)] = 0)
    ∧ hasTruthyFeatures (Json.obj [("features", Json.arr [])]) = false
    ∧ hasTruthyFeatures (Json.obj []) = false := by
  refine ⟨?_, ?_, ?_, ?_⟩
  · cases xs with
    | nil => exact absurd rfl h
    | cons y ys =>
      simp [maxFloodScore, hasTruthyFeatures, lookup, jsonTruthy]
      exact flood_score_map_nonneg p
  · intro hf
    simp [maxFloodScore, hf]
  · simp [hasTruthyFeatures, lookup, jsonTruthy]
  · simp [hasTruthyFeatures, lookup]

/-- Witness for C7 amended at period T100 with a single featureless dict
feature and the null payload. -/
theorem C7_flood_signal_presence_only_witness :
    [Json.obj []] ≠ ([] : List Json)
    ∧ (maxFloodScore [("T100", Json.obj [("features", Json.arr [Json.obj []])])]
        = FLOOD_SCORE_MAP "T100"
      ∧ (hasTruthyFeatures Json.null = false → maxFloodScore [("T100", Json.null)] = 0)
      ∧ hasTruthyFeatures (Json.obj [("features", Json.arr [])]) = false
      ∧ hasTruthyFeatures (Json.obj []) = false) :=
  ⟨by simp, C7_flood_signal_presence_only "T100" Json.null [Json.obj []] (by simp)⟩

lemma allErrorRaw_score (m1 m2 m3 m4 m5 m6 m7 m8 m9 m10 : String) :
    composite_score (allErrorRaw m1 m2 m3 m4 m5 m6 m7 m8 m9 m10) = some 0 := by
  simp [allErrorRaw, composite_score, getObjOrEmpty, lookup, pythonMerge, maxFloodScore,
    presenceScore, hasTruthyFeatures, jsonTruthy, errObj]

lemma allErrorRaw_level (m1 m2 m3 m4 m5 m6 m7 m8 m9 m10 : String) :
    calculate_risk_level (allErrorRaw m1 m2 m3 m4 m5 m6 m7 m8 m9 m10) = some 1 := by
  rw [calculate_risk_level, allErrorRaw_score]
  norm_num [riskLevelOfScore]

/-- Claim C4: when every hazard source failed (every entry of the raw result
is a FetchError dict), the scorer still produces the composite score 0 and
final level 1, and the endpoint still builds the full well-formed response,
in which every per-hazard entry is the unchanged FetchError marker. -/
theorem C4_all_errors_fail_open (lat lon : ℚ)
    (m1 m2 m3 m4 m5 m6 m7 m8 m9 m10 : String) :
    composite_score (allErrorRaw m1 m2 m3 m4 m5 m6 m7 m8 m9 m10) = some 0
    ∧ calculate_risk_level (allErrorRaw m1 m2 m3 m4 m5 m6 m7 m8 m9 m10) = some 1
    ∧ api_risk_clean lat lon (allErrorRaw m1 m2 m3 m4 m5 m6 m7 m8 m9 m10)
      = some (.obj
        [("lat", .num lat), ("lon", .num lon),
         ("risk_analysis", .obj
           [("final_risk_level", .num 1), ("note", .str riskNote)]),
         ("sin_geometria", .obj
           [("dominio_publico_maritimo_terrestre", errObj m1),
            ("incendios", errObj m2),
            ("inundacion_fluvial",
              .obj [("T10", errObj m3), ("T100", errObj m4), ("T500", errObj m5)]),
            ("inundacion_marina", .obj [("T100", errObj m6), ("T500", errObj m7)]),
            ("sismico", errObj m8),
            ("desertificacion_potencial", errObj m9),
            ("desertificacion_laminar", errObj m10)])]) := by
  refine ⟨allErrorRaw_score m1 m2 m3 m4 m5 m6 m7 m8 m9 m10,
    allErrorRaw_level m1 m2 m3 m4 m5 m6 m7 m8 m9 m10, ?_⟩
  rw [api_risk_clean, allErrorRaw_level]
  simp [allErrorRaw, getObjOrEmpty, lookup, errObj, stripValues,
    remove_geometry_from_geojson, typeIs, featuresIterable, stripFeature]

/-- FeatureCollection input carrying an extra collection-level key. -/
def fcWithNameEntries : List (String × Json) :=
  [("type", .str "FeatureCollection"), ("features", .arr []), ("name", .str "capa")]

/-- Claim C6 counterexample: on a FeatureCollection with the extra
collection-level key "name", the output keeps only "type" and "features",
dropping "name" even though it is not a geometry key, so not all
non-geometry keys are preserved. -/
theorem C6_collection_keys_dropped :
    remove_geometry_from_geojson (.obj fcWithNameEntries)
      = some (.obj [("type", .str "FeatureCollection"), ("features", .arr [])])
    ∧ lookup fcWithNameEntries "name" = some (.str "capa")
    ∧ lookup [("type", Json.str "FeatureCollection"), ("features", Json.arr [])] "name"
      = none := by
  refine ⟨?_, ?_, ?_⟩ <;>
    simp [fcWithNameEntries, remove_geometry_from_geojson, typeIs, lookup,
      featuresIterable, stripFeature]

/-- Claim C6 amended: every dict feature loses exactly its geometry key and
keeps its other keys unchanged, and a Feature input keeps all its other
top-level keys; but a FeatureCollection is rebuilt with only its type and
features keys (other collection-level keys and non-dict features are
dropped). -/
theorem C6_geometry_stripping_amended (kvs : List (String × Json)) :
    (typeIs kvs "FeatureCollection" = false → typeIs kvs "Feature" = true →
      ∃ out, remove_geometry_from_geojson (.obj kvs) = some (.obj out)
        ∧ lookup out "geometry" = none
        ∧ ∀ k, k ≠ "geometry" → lookup out k = lookup kvs k)
    ∧ (∀ xs : List Json, typeIs kvs "FeatureCollection" = true →
      lookup kvs "features" = some (.arr xs) →
      remove_geometry_from_geojson (.obj kvs)
        = some (.obj [("type", .str "FeatureCollection"),
                      ("features", .arr (xs.filterMap stripFeature))])
      ∧ ∀ fkvs : List (String × Json), Json.obj fkvs ∈ xs →
          ∃ g, stripFeature (.obj fkvs) = some (.obj g)
            ∧ lookup g "geometry" = none
            ∧ ∀ k, k ≠ "geometry" → lookup g k = lookup fkvs k) := by
  constructor
  · intro hfc hf
    refine ⟨kvs.filter (fun kv => !(kv.1 == "geometry")), ?_, ?_, ?_⟩
    · rw [remove_geometry_from_geojson]
      rw [if_neg (by rw [hfc]; exact fun h => Bool.false_ne_true h), if_pos hf]
    · rw [lookup_filter_geometry, if_pos rfl]
    · intro k hk
      rw [lookup_filter_geometry, if_neg hk]
  · intro xs hfc hfeat
    constructor
    · rw [remove_geometry_from_geojson, if_pos hfc, hfeat]
      rfl
    · intro fkvs hmem
      refine ⟨fkvs.filter (fun kv => !(kv.1 == "geometry")), rfl, ?_, ?_⟩
      · rw [lookup_filter_geometry, if_pos rfl]
      · intro k hk
        rw [lookup_filter_geometry, if_neg hk]

/-- Feature input with a geometry and one property key. -/
def featureEntries : List (String × Json) :=
  [("type", .str "Feature"), ("geometry", .null), ("properties", .obj [("a", .num 1)])]

/-- Witness for C6 amended at a concrete Feature input: the geometry key is
gone and the properties key survives. -/
theorem C6_geometry_stripping_amended_witness :
    typeIs featureEntries "FeatureCollection" = false
    ∧ typeIs featureEntries "Feature" = true
    ∧ ∃ out, remove_geometry_from_geojson (.obj featureEntries) = some (.obj out)
        ∧ lookup out "geometry" = none
        ∧ ∀ k, k ≠ "geometry" → lookup out k = lookup featureEntries k :=
  ⟨by rfl, by rfl,
    (C6_geometry_stripping_amended featureEntries).1 (by rfl) (by rfl)⟩

/-- RawText wrapper returned by fetch_any for a plain-text desertification
response. -/
def rawTextDesertValue : Json := .obj [("raw", .str "value=75.5")]

/-- Raw result whose only entry is a RawText desertification response. -/
def desertRaw : List (String × Json) :=
  [("desertificacion_potencial", rawTextDesertValue)]

lemma desertRaw_level : calculate_risk_level desertRaw = some 1 := by
  rw [calculate_risk_level]
  have : composite_score desertRaw = some 0 := by
    simp [desertRaw, composite_score, getObjOrEmpty, lookup, pythonMerge, maxFloodScore,
      presenceScore, rawTextDesertValue, hasTruthyFeatures, jsonTruthy]
  rw [this]
  norm_num [riskLevelOfScore]

/-- The response the endpoint actually builds for the RawText
desertification input. -/
def desertCleanOut : Json :=
  .obj [("lat", .num 0), ("lon", .num 0),
    ("risk_analysis", .obj [("final_risk_level", .num 1), ("note", .str riskNote)]),
    ("sin_geometria", .obj
      [("dominio_publico_maritimo_terrestre", .obj []),
       ("incendios", .obj []),
       ("inundacion_fluvial", .obj []),
       ("inundacion_marina", .obj []),
       ("sismico", .obj []),
       ("desertificacion_potencial", rawTextDesertValue),
       ("desertificacion_laminar", .obj [])])]

/-- Claim C8 counterexample: for the raw text response holding value=75.5,
the endpoint output carries the RawText wrapper through unchanged; it holds
no nivel and no valor key, instead of the normalized signal the claim
describes. -/
theorem C8_no_desertification_normalizer :
    api_risk_clean 0 0 desertRaw = some desertCleanOut
    ∧ lookup [("raw", Json.str "value=75.5")] "nivel" = none
    ∧ lookup [("raw", Json.str "value=75.5")] "valor" = none := by
  refine ⟨?_, by simp [lookup], by simp [lookup]⟩
  rw [api_risk_clean, desertRaw_level]
  simp [desertRaw, desertCleanOut, getObjOrEmpty, lookup, rawTextDesertValue, stripValues,
    remove_geometry_from_geojson, typeIs, featuresIterable, stripFeature]

/-- Projection of a key out of a JSON object, used only to state properties
of the response. -/
def lookupJ : Json → String → Option Json
  | .obj entries, k => lookup entries k
  | _, _ => none

/-- Claim C8 amended: the endpoint applies no desertification normalizer:
whenever it answers at all, the sin_geometria object carries both
desertification entries through exactly as fetched (the raw value, defaulted
to an empty dict when absent), with no numeric extraction or bucketing. -/
theorem C8_desertification_passthrough (lat lon : ℚ)
    (raw : List (String × Json)) (out : Json)
    (h : api_risk_clean lat lon raw = some out) :
    ∃ sg : List (String × Json), lookupJ out "sin_geometria" = some (.obj sg)
      ∧ lookup sg "desertificacion_potencial"
        = some ((lookup raw "desertificacion_potencial").getD (.obj []))
      ∧ lookup sg "desertificacion_laminar"
        = some ((lookup raw "desertificacion_laminar").getD (.obj [])) := by
  rw [api_risk_clean] at h
  simp only [Option.bind_eq_bind, Option.bind_eq_some, Option.some.injEq] at h
  obtain ⟨lvl, h1, fl, h2, im, h3, dp, h4, inc, h5, infS, h6, imS, h7, sis, h8, hout⟩ := h
  rw [← hout]
  refine ⟨[("dominio_publico_maritimo_terrestre", dp), ("incendios", inc),
      ("inundacion_fluvial", Json.obj infS), ("inundacion_marina", Json.obj imS),
      ("sismico", sis),
      ("desertificacion_potencial", (lookup raw "desertificacion_potencial").getD (Json.obj [])),
      ("desertificacion_laminar", (lookup raw "desertificacion_laminar").getD (Json.obj []))],
    ?_, ?_, ?_⟩ <;> simp [lookupJ, lookup]

/-- Witness for C8 amended at the RawText desertification input. -/
theorem C8_desertification_passthrough_witness :
    api_risk_clean 0 0 desertRaw = some desertCleanOut
    ∧ ∃ sg : List (String × Json), lookupJ desertCleanOut "sin_geometria" = some (.obj sg)
        ∧ lookup sg "desertificacion_potencial"
          = some ((lookup desertRaw "desertificacion_potencial").getD (.obj []))
        ∧ lookup sg "desertificacion_laminar"
          = some ((lookup desertRaw "desertificacion_laminar").getD (.obj [])) := by
  have h : api_risk_clean 0 0 desertRaw = some desertCleanOut := by
    rw [api_risk_clean, desertRaw_level]
    simp [desertRaw, desertCleanOut, getObjOrEmpty, lookup, rawTextDesertValue, stripValues,
      remove_geometry_from_geojson, typeIs, featuresIterable, stripFeature]
  exact ⟨h, C8_desertification_passthrough 0 0 desertRaw desertCleanOut h⟩

end CuantiaRisk
